import Mathlib

/-!
Shallow embedding of `dashboard.py` (Epaper-Dashboard) in Lean 4.

Conventions used throughout:
* Python floats are modelled as `ℚ` (no floating point is involved in any
  claim), timestamps/instants as `ℚ` seconds since the epoch.
* `round` in Python rounds half to even; it is embedded as `pyround`.
* `int(x)` truncation toward zero on a quotient is embedded as `pytrunc`.
* A `requests`/parse failure that raises inside a `try` block is modelled by
  the `NetResult.exn` constructor (respectively by `Option` fields whose
  `none` value stands for a key/attribute access that raises).
-/

namespace Dashboard

/-- Python `int(a / b)` for integers `a` and positive `b`: truncation toward
zero of the exact quotient (Lean's `/` on `ℤ` rounds toward minus infinity,
hence the sign split). -/
def pytruncDiv (a b : ℤ) : ℤ := if 0 ≤ a then a / b else -((-a) / b)

/-- Python `round(q)` to an integer: round half to even (banker's rounding),
expressed through the floor and the fractional part `q - ⌊q⌋`. -/
def pyround (q : ℚ) : ℤ :=
  if q - ⌊q⌋ < 1/2 then ⌊q⌋
  else if 1/2 < q - ⌊q⌋ then ⌊q⌋ + 1
  else if ⌊q⌋ % 2 = 0 then ⌊q⌋ else ⌊q⌋ + 1

/-- `pat.isPrefixOf s ∨ pat occurs in the tail`: helper for substring search
over the code points of a Python string. -/
def hasSubChars (pat : List Char) : List Char → Bool
  | [] => pat.isEmpty
  | c :: t => pat.isPrefixOf (c :: t) || hasSubChars pat t

/-- Python `pat in s` substring test (used for the `"YOUR_" in api_key` guards). -/
def containsSub (s pat : String) : Bool := hasSubChars pat.data s.data

/-- The compass rose of `get_wind_direction` (dashboard.py lines 45-46). -/
def directions : List String :=
  ["N", "NNE", "NE", "ENE", "E", "ESE", "SE", "SSE",
   "S", "SSW", "SW", "WSW", "W", "WNW", "NW", "NNW"]

/-- `get_wind_direction` (dashboard.py lines 42-48).
`idx = round(degrees / 22.5) % 16`; Python `%` on a positive modulus is
`Int.emod`, which is Lean's `%` on `ℤ`. -/
def get_wind_direction : Option ℚ → String
  | none => ""
  | some degrees => directions.getD ((pyround (degrees / 22.5)) % 16).toNat ""

/-- The configuration attributes read by the embedded fragment (`config.py`).
`CALENDAR_URL` models the chain
`getattr(config,'CALENDAR_URL',None) or getattr(config,'CALENDAR_ICS_URL',None)`
collapsed into one optional value.  Latitude/longitude and the stop id only
feed the request URLs and are not part of any modelled behaviour. -/
structure Config where
  OWM_API_KEY : String
  TFNSW_API_KEY : String
  BUS_STOP_ID : String
  CALENDAR_URL : Option String
deriving DecidableEq

/-- Outcome of one outbound HTTP request plus payload decoding: either a
decoded payload, or an exception raised by `requests.get`/`.json()`/
`Calendar.from_ical` (network error, timeout, malformed body, ...). -/
inductive NetResult (α : Type) where
  | exn (msg : String)
  | ok (val : α)
deriving DecidableEq

/-- `res['current']` subobject of the One Call response; each field is `none`
when the key is absent (the code reads every one of them with `.get` and a
default). -/
structure OWMCurrent where
  temp : Option ℚ
  uvi : Option ℚ
  wind_speed : Option ℚ
  wind_deg : Option ℚ
  wind_gust : Option ℚ
deriving DecidableEq

/-- One entry of `res['hourly']`.  `dt`/`temp` are read with `hour_data['dt']`
and `hour_data['temp']`, which raise `KeyError` when absent — hence they stay
`Option` and their absence aborts the surrounding `try`. -/
structure OWMHour where
  dt : Option ℚ
  temp : Option ℚ
  pop : Option ℚ
  wind_gust : Option ℚ
deriving DecidableEq

/-- Decoded OpenWeatherMap One Call response (`res.get('current', {})`,
`res.get('hourly', [])`). -/
structure OWMResp where
  current : Option OWMCurrent
  hourly : Option (List OWMHour)
deriving DecidableEq

/-- One element of the `hourly_data` list built by `get_weather`
(`dt` keeps the epoch timestamp that `datetime.fromtimestamp` wraps). -/
structure HourlyPoint where
  dt : ℚ
  temp : ℚ
  rain : ℚ
deriving DecidableEq

/-- The record returned by `get_weather`.  `temp`/`wind`/`gust` are integers on
success and the strings `"--"`/`"-"` in the placeholder record, hence `ℤ ⊕ String`. -/
structure WeatherRec where
  temp : ℤ ⊕ String
  wind : ℤ ⊕ String
  gust : ℤ ⊕ String
  wind_dir : String
  rain : ℤ
  uv : ℤ
  hourly : List HourlyPoint
deriving DecidableEq

/-- The record `get_weather` returns on a missing key or on any caught
exception (dashboard.py lines 56 and 118). -/
def weatherPlaceholder : WeatherRec :=
  { temp := .inr "--", wind := .inr "-", gust := .inr "-",
    wind_dir := "", rain := 0, uv := 0, hourly := [] }

/-- Python `max` over a list (the list is nonempty whenever the code calls it). -/
def listMax : List ℚ → ℚ
  | [] => 0
  | x :: xs => xs.foldl max x

/-- The `for i in range(min(12, len(hourly)))` loop body building
`hourly_data`; `hour_data['dt']`/`['temp']` raise when absent. -/
def mkHourlyData : List OWMHour → Except String (List HourlyPoint)
  | [] => .ok []
  | h :: t => do
    match h.dt, h.temp with
    | some d, some tp =>
      let rest ← mkHourlyData t
      return { dt := d, temp := tp, rain := (h.pop.getD 0) * 100 } :: rest
    | none, _ => .error "KeyError: dt"
    | _, none => .error "KeyError: temp"

/-- Body of the `try` block of `get_weather` after the request succeeded
(dashboard.py lines 65-115). -/
def get_weather_body (resp : OWMResp) : Except String WeatherRec := do
  let current := resp.current.getD
    { temp := none, uvi := none, wind_speed := none, wind_deg := none, wind_gust := none }
  let hourly := resp.hourly.getD []
  let temp := pyround (current.temp.getD 0)
  let uv := pyround (current.uvi.getD 0)
  let wind_ms := current.wind_speed.getD 0
  let wind_kn := pyround (wind_ms * 1.94384)
  let wind_deg := current.wind_deg.getD 0
  let wind_dir := get_wind_direction (some wind_deg)
  let gust_ms : ℚ :=
    match current.wind_gust, hourly with
    | some g, _ => g
    | none, h :: _ => h.wind_gust.getD 0
    | none, [] => wind_ms
  let gust_kn := pyround (gust_ms * 1.94384)
  let rain_chance : ℤ :=
    match hourly with
    | [] => 0
    | _ => pyround (listMax ((hourly.take 12).map (fun h => h.pop.getD 0)) * 100)
  let hourly_data ← mkHourlyData (hourly.take 12)
  return { temp := .inl temp, wind := .inl wind_kn, gust := .inl gust_kn,
           wind_dir := wind_dir, rain := rain_chance, uv := uv, hourly := hourly_data }

/-- `get_weather` (dashboard.py lines 50-118): credential guard, then the
request, then the body; every raise is caught and becomes the placeholder. -/
def get_weather (cfg : Config) (net : NetResult OWMResp) : WeatherRec :=
  if cfg.OWM_API_KEY = "" ∨ containsSub cfg.OWM_API_KEY "YOUR_" = true then
    weatherPlaceholder
  else
    match net with
    | .exn _ => weatherPlaceholder
    | .ok resp =>
      match get_weather_body resp with
      | .ok r => r
      | .error _ => weatherPlaceholder

/-- One element of `resp['stopEvents']`.  Departure time strings are modelled
after parsing (`datetime.fromisoformat`) as whole-second epoch instants (the
feed carries whole seconds); a field is `none` when the key is absent.
`transportation` holds `(transportation.number, transportation.destination.name)`;
`none` stands for a missing key, whose access raises `KeyError` mid-loop. -/
structure TransitEvent where
  departureTimeEstimated : Option ℤ
  departureTimePlanned : Option ℤ
  transportation : Option (String × String)
deriving DecidableEq

/-- One record appended to `departures` by `get_transport`. -/
structure Departure where
  route : String
  destination : String
  due : String
deriving DecidableEq

/-- `[{"route": "ERR", "destination": "Set API Key", "due": "--"}]` entry
(dashboard.py line 170). -/
def apiKeyErrRec : Departure := { route := "ERR", destination := "Set API Key", due := "--" }

/-- `[{"route": "--", "destination": "No services", "due": ""}]` entry
(dashboard.py line 205). -/
def noServicesRec : Departure := { route := "--", destination := "No services", due := "" }

/-- `event.get('departureTimeEstimated', event.get('departureTimePlanned'))`. -/
def eventTime (e : TransitEvent) : Option ℤ :=
  match e.departureTimeEstimated with
  | some t => some t
  | none => e.departureTimePlanned

/-- The departure record built at dashboard.py lines 191-201 for a kept event:
`diff = int((dep_dt - now).total_seconds() / 60)`, destination truncated at the
first comma (`split(",")[0]`) and to 15 characters. -/
def mkDeparture (now dep : ℤ) (rd : String × String) : Departure :=
  let diff := pytruncDiv (dep - now) 60
  { route := rd.1
    destination := String.mk ((rd.2.data.takeWhile (fun c => c ≠ ',')).take 15)
    due := if 0 < diff then toString diff ++ "m" else "Now" }

/-- The decision the loop body of `get_transport` takes for one stop event:
`none` when the event is skipped (`continue`) or when accessing
`event['transportation']` would raise. -/
def procEvent (now : ℤ) (e : TransitEvent) : Option Departure :=
  match eventTime e with
  | none => none
  | some dep =>
    if pytruncDiv (dep - now) 60 < 0 then none
    else e.transportation.map (mkDeparture now dep)

/-- The `for event in events[:4]` loop of `get_transport` (dashboard.py lines
180-201), accumulating `departures`.  A `KeyError` on `event['transportation']`
aborts the loop; the surrounding `except` then falls through to the final
`return`, so the partially built list is what the caller sees. -/
def transitLoop (now : ℤ) (acc : List Departure) : List TransitEvent → List Departure
  | [] => acc
  | e :: rest =>
    match eventTime e with
    | none => transitLoop now acc rest
    | some dep =>
      if pytruncDiv (dep - now) 60 < 0 then transitLoop now acc rest
      else
        match e.transportation with
        | none => acc
        | some rd => transitLoop now (acc ++ [mkDeparture now dep rd]) rest

/-- `get_transport` (dashboard.py lines 164-205). -/
def get_transport (cfg : Config) (net : NetResult (List TransitEvent)) (now : ℤ) :
    List Departure :=
  if cfg.TFNSW_API_KEY = "" ∨ containsSub cfg.TFNSW_API_KEY "YOUR_" = true then
    [apiKeyErrRec]
  else
    let departures :=
      match net with
      | .exn _ => []
      | .ok events => transitLoop now [] (events.take 4)
    if departures = [] then [noServicesRec] else departures

/-- Result of `feedparser.parse` for one feed: an exception (any raise inside
the per-feed `try` is swallowed by the bare `except`), or a list of entries.
An entry is the optional value of `.title`; `none` makes `feed.entries[0].title`
raise, which the same bare `except` swallows. -/
inductive FeedResult where
  | exn
  | ok (entries : List (Option String))
deriving DecidableEq

/-- One element of the `headlines` list of `get_news`. -/
structure NewsItem where
  source : String
  source_code : String
  title : String
deriving DecidableEq

/-- The per-feed body of `get_news` (dashboard.py lines 215-220). -/
def fetchFeed (name code : String) : FeedResult → Option NewsItem
  | .exn => none
  | .ok [] => none
  | .ok (none :: _) => none
  | .ok (some t :: _) => some { source := name, source_code := code, title := t }

/-- `get_news` (dashboard.py lines 207-222) over its fixed two-feed source
list; an erroring feed is skipped, partial results are returned. -/
def get_news (abc gdn : FeedResult) : List NewsItem :=
  (fetchFeed "ABC" "abc" abc).toList ++ (fetchFeed "Gdn" "guardian" gdn).toList

/-- The start field of one VEVENT after the timezone normalisation of
dashboard.py lines 246-273: a timed event's resolved instant, an all-day
event's local-midnight instant, or `missing` for a component whose
`component.get('dtstart').dt` access raises (e.g. no DTSTART). -/
inductive CalStart where
  | timed (instant : ℚ)
  | allDay (midnight : ℚ)
  | missing
deriving DecidableEq

/-- One component yielded by `cal.walk()`: a VEVENT or anything else. -/
inductive CalComp where
  | vevent (summary : String) (dtstart : CalStart)
  | other
deriving DecidableEq

/-- One element of the `events` list of `get_calendar`.  The formatted
`full_text` string (strftime output) is outside the embedded fragment; the
fields that drive filtering/sorting/capping are kept. -/
structure CalEvent where
  dt : ℚ
  summary : String
  allDay : Bool
deriving DecidableEq

/-- `if len(summary) > 20: summary = summary[:18] + ".."` (lines 278-279). -/
def shorten (s : String) : String :=
  if 20 < s.length then String.mk (s.data.take 18) ++ ".." else s

/-- The `for component in cal.walk()` loop (dashboard.py lines 240-282),
accumulating `events`.  The second component of the result records whether the
walk ran to completion; on a raise the `except` falls through to
`return events[:4]` without sorting, so the partial list survives. -/
def calWalk (now : ℚ) (acc : List CalEvent) : List CalComp → List CalEvent × Bool
  | [] => (acc, true)
  | .other :: rest => calWalk now acc rest
  | .vevent summary st :: rest =>
    match st with
    | .missing => (acc, false)
    | .timed i =>
      if now < i then calWalk now (acc ++ [{ dt := i, summary := shorten summary, allDay := false }]) rest
      else calWalk now acc rest
    | .allDay i =>
      if now < i then calWalk now (acc ++ [{ dt := i, summary := shorten summary, allDay := true }]) rest
      else calWalk now acc rest

/-- `events.sort(key=lambda x: x['dt'])`: Python's sort is stable, and a
stable sort's output is uniquely determined by sortedness + stability +
permutation, so any stable sort is a faithful model; `List.insertionSort`
is stable. -/
def sortCal (l : List CalEvent) : List CalEvent :=
  l.insertionSort (fun a b => a.dt ≤ b.dt)

/-- `get_calendar` (dashboard.py lines 224-287).  `if not cal_url: return []`
also treats an empty-string URL as falsy. -/
def get_calendar (cfg : Config) (net : NetResult (List CalComp)) (now : ℚ) :
    List CalEvent :=
  match cfg.CALENDAR_URL with
  | none => []
  | some u =>
    if u = "" then []
    else
      match net with
      | .exn _ => []
      | .ok comps =>
        let res := calWalk now [] comps
        (if res.2 then sortCal res.1 else res.1).take 4

/-- The mutable state of `main` that survives across loop iterations
(dashboard.py lines 319-324). -/
structure CacheState where
  last_slow_update : ℚ
  cached_weather : Option WeatherRec
  cached_news : List NewsItem
  cached_calendar : List CalEvent
deriving DecidableEq

/-- The initial values set before the loop (lines 320-324). -/
def initCache : CacheState :=
  { last_slow_update := 0, cached_weather := none, cached_news := [], cached_calendar := [] }

/-- What the external world hands each slow-bucket adapter at one refresh. -/
structure SlowInputs where
  weatherNet : NetResult OWMResp
  newsABC : FeedResult
  newsGdn : FeedResult
  calNet : NetResult (List CalComp)

def SLOW_UPDATE_INTERVAL : ℚ := 1800

/-- The slow-bucket refresh step of the main loop (dashboard.py lines
334-342): when due (interval elapsed or no cached weather yet) every slow slot
is overwritten with the adapter's fresh result and the timer is reset;
otherwise the state is untouched.  The boolean records whether a refetch
happened. -/
def slowRefresh (cfg : Config) (inp : SlowInputs) (now : ℚ) (s : CacheState) :
    CacheState × Bool :=
  if SLOW_UPDATE_INTERVAL ≤ now - s.last_slow_update ∨ s.cached_weather = none then
    ({ last_slow_update := now
       cached_weather := some (get_weather cfg inp.weatherNet)
       cached_news := get_news inp.newsABC inp.newsGdn
       cached_calendar := get_calendar cfg inp.calNet now }, true)
  else (s, false)

def TARGET_INTERVAL : ℚ := 300

/-- `sleep_time = max(0, 300 - elapsed)` (dashboard.py line 367). -/
def sleep_time (elapsed : ℚ) : ℚ := max 0 (TARGET_INTERVAL - elapsed)

/-- How one iteration of the `while True` body ends: normally (with its
measured elapsed time), with a `KeyboardInterrupt`, or with any other
exception escaping the steps of the iteration. -/
inductive IterOutcome where
  | ok (elapsed : ℚ)
  | interrupt
  | err (msg : String)
deriving DecidableEq

/-- What the loop does next: sleep the cadence remainder and iterate again,
sleep the fixed cooldown and iterate again, or leave the loop. -/
inductive IterAction where
  | sleepThenContinue (t : ℚ)
  | cooldownContinue (t : ℚ)
  | exitLoop
deriving DecidableEq

/-- The control decision of the `while True` loop (dashboard.py lines
331-377): normal end of body sleeps `max(0, 300 - elapsed)`;
`except KeyboardInterrupt` breaks; `except Exception` logs and sleeps 60. -/
def loopIter : IterOutcome → IterAction
  | .ok elapsed => .sleepThenContinue (sleep_time elapsed)
  | .interrupt => .exitLoop
  | .err _ => .cooldownContinue 60

/-- The loop is still running after `n` iterations of the trace `tr`. -/
def aliveAfter (tr : ℕ → IterOutcome) : ℕ → Prop
  | 0 => True
  | n + 1 => aliveAfter tr n ∧ loopIter (tr n) ≠ .exitLoop

/-! Concrete inputs used by witnesses and counterexamples. -/

/-- A configuration with valid-looking credentials and a calendar URL. -/
def cfg1 : Config :=
  { OWM_API_KEY := "K", TFNSW_API_KEY := "K", BUS_STOP_ID := "123",
    CALENDAR_URL := some "http://cal" }

/-- A configuration whose API credentials are the empty string. -/
def cfg0 : Config :=
  { OWM_API_KEY := "", TFNSW_API_KEY := "", BUS_STOP_ID := "123",
    CALENDAR_URL := none }

/-- A decoded weather response carrying no `current` and no `hourly` key. -/
def resp0 : OWMResp := { current := none, hourly := none }

/-- The record `get_weather` produces for `resp0` with a valid key: every
`.get` default kicks in. -/
def wOk : WeatherRec :=
  { temp := .inl 0, wind := .inl 0, gust := .inl 0, wind_dir := "N",
    rain := 0, uv := 0, hourly := [] }

/-- Slow-bucket inputs of a refresh where the weather request succeeds. -/
def inpOk : SlowInputs :=
  { weatherNet := .ok resp0, newsABC := .exn, newsGdn := .exn, calNet := .exn "down" }

/-- Slow-bucket inputs of a refresh where the weather request times out. -/
def inpBad : SlowInputs :=
  { weatherNet := .exn "timeout", newsABC := .exn, newsGdn := .exn, calNet := .exn "down" }

/-- A stop event whose departure lies 30 seconds in the past. -/
def pastEvent : TransitEvent :=
  { departureTimeEstimated := some (-30), departureTimePlanned := none,
    transportation := some ("100", "X") }

/-- A stop event whose departure lies 120 seconds in the future. -/
def futureEvent : TransitEvent :=
  { departureTimeEstimated := some 120, departureTimePlanned := none,
    transportation := some ("10", "City") }

/-- A calendar feed whose third VEVENT has no readable DTSTART, with the two
events before it out of order. -/
def badFeed : List CalComp :=
  [.vevent "A" (.timed 10), .vevent "B" (.timed 5), .vevent "C" .missing]

/-- A well-formed calendar feed with a single future event. -/
def goodFeed : List CalComp := [.vevent "A" (.timed 5)]

/-- A cache whose last slow refresh (at time 0) had stored the weather
placeholder. -/
def staleCache : CacheState :=
  { last_slow_update := 0, cached_weather := some weatherPlaceholder,
    cached_news := [], cached_calendar := [] }

instance : IsTotal CalEvent (fun a b => a.dt ≤ b.dt) :=
  ⟨fun a b => le_total a.dt b.dt⟩

instance : IsTrans CalEvent (fun a b => a.dt ≤ b.dt) :=
  ⟨fun _ _ _ h1 h2 => le_trans h1 h2⟩

/-! Helper lemmas. -/

theorem pyround_add_int_even (q : ℚ) (n : ℤ) (hn : n % 2 = 0) :
    pyround (q + n) = pyround q + n := by
  unfold pyround
  rw [Int.floor_add_int q n]
  have hfr : q + (n : ℚ) - ((⌊q⌋ + n : ℤ) : ℚ) = q - (⌊q⌋ : ℚ) := by
    push_cast
    ring
  rw [hfr]
  have hmod : (⌊q⌋ + n) % 2 = ⌊q⌋ % 2 := by omega
  rw [hmod]
  split_ifs <;> ring

theorem pyround_intCast (n : ℤ) : pyround (n : ℚ) = n := by
  unfold pyround
  rw [Int.floor_intCast]
  norm_num

theorem windDiv (d : ℚ) (k : ℤ) :
    (d + 360 * k) / 22.5 = d / 22.5 + ((16 * k : ℤ) : ℚ) := by
  have h : (22.5 : ℚ) ≠ 0 := by norm_num
  field_simp
  ring

theorem pytruncDiv_neg_iff (a : ℤ) : pytruncDiv a 60 < 0 ↔ a ≤ -60 := by
  unfold pytruncDiv
  split_ifs with h <;> omega

/-! Claim theorems. -/

/-- Claim C6: for every cycle with measured elapsed time, the computed sleep
duration of the main loop equals `TARGET_INTERVAL - elapsed` when
`elapsed < TARGET_INTERVAL`, equals `0` otherwise, and is never negative. -/
theorem c6_sleep_formula (elapsed : ℚ) :
    sleep_time elapsed =
      (if elapsed < TARGET_INTERVAL then TARGET_INTERVAL - elapsed else 0) ∧
    0 ≤ sleep_time elapsed := by
  unfold sleep_time
  refine ⟨?_, le_max_left 0 _⟩
  split_ifs with h
  · exact max_eq_right (by linarith)
  · exact max_eq_left (by linarith)

/-- Claim C7: every exception other than the explicit interrupt is caught at
the loop boundary and answered with a fixed 60-second cooldown followed by
another iteration; the interrupt is the only action that exits the loop, and
as long as no iteration of a trace ends in an interrupt the loop is still
alive. -/
theorem c7_loop_fault_policy (tr : ℕ → IterOutcome) :
    (∀ msg, loopIter (.err msg) = .cooldownContinue 60) ∧
    (∀ o, loopIter o = .exitLoop ↔ o = .interrupt) ∧
    (∀ n, (∀ k, k < n → tr k ≠ .interrupt) → aliveAfter tr n) := by
  refine ⟨fun _ => rfl, ?_, ?_⟩
  · intro o
    cases o <;> simp [loopIter]
  · intro n
    induction n with
    | zero => intro _; trivial
    | succ m ih =>
      intro h
      refine ⟨ih (fun k hk => h k (by omega)), ?_⟩
      cases ho : tr m with
      | ok e => simp [loopIter]
      | interrupt => exact absurd ho (h m (by omega))
      | err msg => simp [loopIter]

/-- Witness for C7 at the trace that fails with an exception on every
iteration: the loop is still alive after three iterations. -/
theorem c7_loop_fault_policy_witness :
    aliveAfter (fun _ => IterOutcome.err "boom") 3 :=
  (c7_loop_fault_policy (fun _ => IterOutcome.err "boom")).2.2 3
    (fun k _ => by simp)

/-- Claim C8: the compass label (computed as `directions[round(d/22.5) % 16]`
by `get_wind_direction`) is invariant under adding full turns `360 * k`, and
the boundary bearing `360` maps to the same label as `0`. -/
theorem c8_wind_direction_mod360 :
    (∀ (d : ℚ) (k : ℤ),
      get_wind_direction (some (d + 360 * k)) = get_wind_direction (some d)) ∧
    get_wind_direction (some 360) = get_wind_direction (some 0) := by
  constructor
  · intro d k
    simp only [get_wind_direction]
    rw [windDiv, pyround_add_int_even _ _ (by omega)]
    have hmod : (pyround (d / 22.5) + 16 * k) % 16 = pyround (d / 22.5) % 16 := by
      omega
    rw [hmod]
  · simp only [get_wind_direction]
    rw [show (360 : ℚ) / 22.5 = ((16 : ℤ) : ℚ) by norm_num,
      show (0 : ℚ) / 22.5 = ((0 : ℤ) : ℚ) by norm_num,
      pyround_intCast, pyround_intCast]
    norm_num

/-- Claim C9: an adapter whose configured API credential is the empty string
returns its placeholder record, and its result does not depend on the network
at all (no network call is consulted). -/
theorem c9_empty_credential_no_network (cfg : Config)
    (netW netW2 : NetResult OWMResp) (netT netT2 : NetResult (List TransitEvent))
    (now : ℤ) (hw : cfg.OWM_API_KEY = "") (ht : cfg.TFNSW_API_KEY = "") :
    get_weather cfg netW = weatherPlaceholder ∧
    get_weather cfg netW = get_weather cfg netW2 ∧
    get_transport cfg netT now = [apiKeyErrRec] ∧
    get_transport cfg netT now = get_transport cfg netT2 now := by
  unfold get_weather get_transport
  rw [hw, ht]
  simp

/-- Witness for C9 at a concrete empty-credential configuration, comparing a
failing network against a succeeding one. -/
theorem c9_empty_credential_no_network_witness :
    get_weather cfg0 (.exn "net") = weatherPlaceholder ∧
    get_weather cfg0 (.exn "net") = get_weather cfg0 (.ok resp0) ∧
    get_transport cfg0 (.exn "net") 0 = [apiKeyErrRec] ∧
    get_transport cfg0 (.exn "net") 0 = get_transport cfg0 (.ok [futureEvent]) 0 :=
  c9_empty_credential_no_network cfg0 (.exn "net") (.ok resp0) (.exn "net")
    (.ok [futureEvent]) 0 rfl rfl

/-- Claim C3: no adapter lets an exception propagate: on a raising request
each adapter returns its explicit placeholder record ( `get_transport` returns
its credential placeholder when the key guard already fails), `get_weather`
always returns either its placeholder or the successfully decoded record, and
the news adapter with both feeds failing returns the empty (still valid)
list. -/
theorem c3_adapters_never_raise (cfg : Config) (msg : String) (now : ℤ) (nowq : ℚ) :
    get_weather cfg (.exn msg) = weatherPlaceholder ∧
    (∀ resp, get_weather cfg (.ok resp) = weatherPlaceholder ∨
      ∃ r, get_weather_body resp = Except.ok r ∧ get_weather cfg (.ok resp) = r) ∧
    (get_transport cfg (.exn msg) now = [apiKeyErrRec] ∨
      get_transport cfg (.exn msg) now = [noServicesRec]) ∧
    get_calendar cfg (.exn msg) nowq = [] ∧
    get_news .exn .exn = [] := by
  refine ⟨?_, ?_, ?_, ?_, rfl⟩
  · unfold get_weather
    split_ifs <;> rfl
  · intro resp
    by_cases h : cfg.OWM_API_KEY = "" ∨ containsSub cfg.OWM_API_KEY "YOUR_" = true
    · exact Or.inl (by unfold get_weather; rw [if_pos h])
    · have hred : get_weather cfg (.ok resp) =
          (match get_weather_body resp with
            | Except.ok r => r
            | Except.error _ => weatherPlaceholder) := by
        unfold get_weather
        rw [if_neg h]
      rcases hb : get_weather_body resp with e | r
      · exact Or.inl (by rw [hred, hb])
      · exact Or.inr ⟨r, rfl, by rw [hred, hb]⟩
  · unfold get_transport
    split_ifs with h
    · exact Or.inl rfl
    · exact Or.inr rfl
  · unfold get_calendar
    cases hu : cfg.CALENDAR_URL with
    | none => rfl
    | some u =>
      dsimp only
      split_ifs <;> rfl

/-- The transit loop appends to its accumulator exactly a prefix of what the
per-event decision function keeps: `transitLoop now acc l = acc ++ p` where
`l.filterMap (procEvent now) = p ++ rest` (the `rest` is dropped only when a
`KeyError` aborts the loop). -/
theorem transitLoop_eq_append (now : ℤ) :
    ∀ (l : List TransitEvent) (acc : List Departure),
      ∃ p rest, transitLoop now acc l = acc ++ p ∧
        l.filterMap (procEvent now) = p ++ rest := by
  intro l
  induction l with
  | nil =>
    intro acc
    exact ⟨[], [], by simp [transitLoop], by simp⟩
  | cons e tl ih =>
    intro acc
    cases ht : eventTime e with
    | none =>
      obtain ⟨p, rest, h1, h2⟩ := ih acc
      refine ⟨p, rest, ?_, ?_⟩
      · simp only [transitLoop, ht]
        exact h1
      · have hpe : procEvent now e = none := by
          simp only [procEvent, ht]
        simp only [List.filterMap_cons, hpe]
        exact h2
    | some dep =>
      by_cases hlt : pytruncDiv (dep - now) 60 < 0
      · obtain ⟨p, rest, h1, h2⟩ := ih acc
        refine ⟨p, rest, ?_, ?_⟩
        · simp only [transitLoop, ht]
          rw [if_pos hlt]
          exact h1
        · have hpe : procEvent now e = none := by
            simp only [procEvent, ht]
            rw [if_pos hlt]
          simp only [List.filterMap_cons, hpe]
          exact h2
      · cases htr : e.transportation with
        | none =>
          refine ⟨[], tl.filterMap (procEvent now), ?_, ?_⟩
          · simp only [transitLoop, ht]
            rw [if_neg hlt, htr]
            simp
          · have hpe : procEvent now e = none := by
              simp only [procEvent, ht]
              rw [if_neg hlt, htr]
              rfl
            simp only [List.filterMap_cons, hpe, List.nil_append]
        | some rd =>
          obtain ⟨p, rest, h1, h2⟩ := ih (acc ++ [mkDeparture now dep rd])
          refine ⟨mkDeparture now dep rd :: p, rest, ?_, ?_⟩
          · simp only [transitLoop, ht]
            rw [if_neg hlt, htr]
            dsimp only
            rw [h1]
            simp
          · have hpe : procEvent now e = some (mkDeparture now dep rd) := by
              simp only [procEvent, ht]
              rw [if_neg hlt, htr]
              rfl
            simp only [List.filterMap_cons, hpe, h2, List.cons_append]

/-- Counterexample to claim C2 as stated: with `now = 0`, the event departing
30 seconds in the past is emitted (its truncated minute difference is `0`, not
negative), so not every emitted departure is at or after `now`. -/
theorem c2_past_departure_counterexample :
    ¬ ∀ d ∈ transitLoop 0 [] ([pastEvent].take 4),
        ∃ e ∈ [pastEvent].take 4, ∃ dep, eventTime e = some dep ∧ (0 : ℤ) ≤ dep := by
  intro h
  obtain ⟨e, he, dep, hdep, hge⟩ :=
    h { route := "100", destination := "X", due := "Now" } (by decide)
  have he2 : e = pastEvent := by simpa using he
  subst he2
  simp [eventTime, pastEvent] at hdep
  omega

/-- Claim C2, amended: every departure emitted by the transit loop stems from
one of the first four stop events carrying a departure instant strictly later
than `now - 60`; the minute difference is truncated toward zero, so a
departure less than one minute in the past still passes the filter (and no
older one does). -/
theorem c2_departures_not_older_than_one_minute (now : ℤ) (events : List TransitEvent) :
    ∀ d ∈ transitLoop now [] (events.take 4),
      ∃ e ∈ events.take 4, ∃ dep, eventTime e = some dep ∧ now - 60 < dep := by
  intro d hd
  obtain ⟨p, rest, h1, h2⟩ := transitLoop_eq_append now (events.take 4) []
  rw [h1, List.nil_append] at hd
  have hmem : d ∈ List.filterMap (procEvent now) (events.take 4) := by
    rw [h2]
    exact List.mem_append_left _ hd
  obtain ⟨e, he, hpe⟩ := List.mem_filterMap.1 hmem
  refine ⟨e, he, ?_⟩
  cases ht : eventTime e with
  | none =>
    rw [procEvent, ht] at hpe
    dsimp only at hpe
    cases hpe
  | some dep =>
    rw [procEvent, ht] at hpe
    dsimp only at hpe
    by_cases hlt : pytruncDiv (dep - now) 60 < 0
    · rw [if_pos hlt] at hpe
      cases hpe
    · refine ⟨dep, rfl, ?_⟩
      have hn : ¬ dep - now ≤ -60 := fun hc =>
        hlt ((pytruncDiv_neg_iff (dep - now)).2 hc)
      omega

/-- Witness for the amended C2 at a concrete emitted departure two minutes in
the future. -/
theorem c2_departures_not_older_than_one_minute_witness :
    ∃ e ∈ [futureEvent].take 4, ∃ dep, eventTime e = some dep ∧ (0 : ℤ) - 60 < dep :=
  c2_departures_not_older_than_one_minute 0 [futureEvent]
    { route := "10", destination := "City", due := "2m" } (by decide)

/-- Claim C10: the transit adapter emits at most 4 records for every input,
and what the loop emits is a prefix of the per-event results of the first
four stop events only — an event past position 4 is never consulted, even
when fewer than 4 departures pass the filter. -/
theorem c10_transit_first_four_only (cfg : Config) (net : NetResult (List TransitEvent))
    (now : ℤ) (events : List TransitEvent) :
    (get_transport cfg net now).length ≤ 4 ∧
    ∃ rest, (events.take 4).filterMap (procEvent now) =
      transitLoop now [] (events.take 4) ++ rest := by
  constructor
  · unfold get_transport
    split_ifs with h
    · simp
    · cases net with
      | exn m => simp
      | ok evts =>
        obtain ⟨p, rest, h1, h2⟩ := transitLoop_eq_append now (evts.take 4) []
        rw [List.nil_append] at h1
        by_cases hnil : transitLoop now [] (evts.take 4) = []
        · dsimp only
          rw [hnil]
          simp
        · dsimp only
          rw [if_neg hnil, h1]
          have hp : p.length + rest.length = ((evts.take 4).filterMap (procEvent now)).length := by
            rw [h2]
            simp
          have hfm : ((evts.take 4).filterMap (procEvent now)).length ≤ (evts.take 4).length :=
            List.length_filterMap_le _ _
          have htk : (evts.take 4).length ≤ 4 := List.length_take_le 4 evts
          omega
  · obtain ⟨p, rest, h1, h2⟩ := transitLoop_eq_append now (events.take 4) []
    rw [List.nil_append] at h1
    exact ⟨rest, by rw [h2, h1]⟩

/-- Every element of the list the calendar walk accumulates is either already
in the starting accumulator or passed the `now < dtstart` filter. -/
theorem calWalk_mem (now : ℚ) :
    ∀ (comps : List CalComp) (acc : List CalEvent) (e : CalEvent),
      e ∈ (calWalk now acc comps).1 → e ∈ acc ∨ now < e.dt := by
  intro comps
  induction comps with
  | nil =>
    intro acc e h
    exact Or.inl (by simpa [calWalk] using h)
  | cons c tl ih =>
    intro acc e h
    cases c with
    | other => exact ih acc e (by simpa [calWalk] using h)
    | vevent s st =>
      cases st with
      | missing => exact Or.inl (by simpa [calWalk] using h)
      | timed i =>
        by_cases hc : now < i
        · have hm := ih (acc ++ [{ dt := i, summary := shorten s, allDay := false }]) e
            (by simpa [calWalk, hc] using h)
          rcases hm with hm | hd
          · rcases List.mem_append.1 hm with h1 | h2
            · exact Or.inl h1
            · right
              have : e = { dt := i, summary := shorten s, allDay := false } := by
                simpa using h2
              rw [this]
              exact hc
          · exact Or.inr hd
        · exact ih acc e (by simpa [calWalk, hc] using h)
      | allDay i =>
        by_cases hc : now < i
        · have hm := ih (acc ++ [{ dt := i, summary := shorten s, allDay := true }]) e
            (by simpa [calWalk, hc] using h)
          rcases hm with hm | hd
          · rcases List.mem_append.1 hm with h1 | h2
            · exact Or.inl h1
            · right
              have : e = { dt := i, summary := shorten s, allDay := true } := by
                simpa using h2
              rw [this]
              exact hc
          · exact Or.inr hd
        · exact ih acc e (by simpa [calWalk, hc] using h)

/-- Counterexample to claim C4 as stated: a feed whose third VEVENT has no
readable DTSTART aborts the walk before `events.sort` runs, and the two
previously collected events come back in feed order `[dt 10, dt 5]` — not
sorted ascending. -/
theorem c4_unsorted_on_parse_error_counterexample :
    get_calendar cfg1 (.ok badFeed) 0 =
      [{ dt := 10, summary := "A", allDay := false },
       { dt := 5, summary := "B", allDay := false }] ∧
    ¬ List.Pairwise (fun a b : CalEvent => a.dt ≤ b.dt)
        (get_calendar cfg1 (.ok badFeed) 0) := by
  constructor <;> decide

/-- Claim C4, amended: the calendar adapter's output only contains events
strictly after `now` and is capped at 4 in every case; it is sorted ascending
by start instant whenever the walk over the feed completes without a parse
error (when a VEVENT aborts the walk, the events collected so far are
returned in feed order, still filtered and capped). -/
theorem c4_calendar_filter_cap_sorted_amended (cfg : Config)
    (net : NetResult (List CalComp)) (now : ℚ) :
    (∀ e ∈ get_calendar cfg net now, now < e.dt) ∧
    (get_calendar cfg net now).length ≤ 4 ∧
    (∀ comps, net = .ok comps → (calWalk now [] comps).2 = true →
      List.Pairwise (fun a b => a.dt ≤ b.dt) (get_calendar cfg net now)) := by
  refine ⟨?_, ?_, ?_⟩
  · intro e he
    unfold get_calendar at he
    cases hu : cfg.CALENDAR_URL with
    | none => rw [hu] at he; cases he
    | some u =>
      rw [hu] at he
      dsimp only at he
      by_cases hue : u = ""
      · rw [if_pos hue] at he; cases he
      · rw [if_neg hue] at he
        cases net with
        | exn m => cases he
        | ok comps =>
          have he2 := (List.take_sublist 4 _).mem he
          by_cases hc : (calWalk now [] comps).2 = true
          · rw [if_pos hc] at he2
            have he3 : e ∈ (calWalk now [] comps).1 :=
              ((List.perm_insertionSort _ _).mem_iff).1 he2
            rcases calWalk_mem now comps [] e he3 with hx | hx
            · cases hx
            · exact hx
          · rw [if_neg hc] at he2
            rcases calWalk_mem now comps [] e he2 with hx | hx
            · cases hx
            · exact hx
  · unfold get_calendar
    cases hu : cfg.CALENDAR_URL with
    | none => simp
    | some u =>
      dsimp only
      split_ifs
      · simp
      · cases net with
        | exn m => simp
        | ok comps => exact List.length_take_le 4 _
  · intro comps hnet hdone
    subst hnet
    unfold get_calendar
    cases hu : cfg.CALENDAR_URL with
    | none => exact List.Pairwise.nil
    | some u =>
      dsimp only
      split_ifs with hue
      · exact List.Pairwise.nil
      · exact List.Pairwise.sublist (List.take_sublist 4 _)
          (List.sorted_insertionSort (fun a b : CalEvent => a.dt ≤ b.dt) _)

/-- Witness for the amended C4 at a one-event feed: the event lies after
`now = 0`, the output is within the cap, and it is sorted. -/
theorem c4_calendar_filter_cap_sorted_amended_witness :
    ((0 : ℚ) < ({ dt := 5, summary := "A", allDay := false } : CalEvent).dt) ∧
    (get_calendar cfg1 (.ok goodFeed) 0).length ≤ 4 ∧
    List.Pairwise (fun a b : CalEvent => a.dt ≤ b.dt)
      (get_calendar cfg1 (.ok goodFeed) 0) :=
  ⟨(c4_calendar_filter_cap_sorted_amended cfg1 (.ok goodFeed) 0).1 _ (by decide),
   (c4_calendar_filter_cap_sorted_amended cfg1 (.ok goodFeed) 0).2.1,
   (c4_calendar_filter_cap_sorted_amended cfg1 (.ok goodFeed) 0).2.2 goodFeed rfl (by decide)⟩

/-- A refresh invocation that is not due (interval not elapsed, weather slot
populated) leaves the cache untouched and performs no fetch. -/
theorem slowRefresh_skip (cfg : Config) (inp : SlowInputs) (now : ℚ) (s : CacheState)
    (hlt : now - s.last_slow_update < SLOW_UPDATE_INTERVAL)
    (hw : s.cached_weather ≠ none) :
    slowRefresh cfg inp now s = (s, false) := by
  unfold slowRefresh
  rw [if_neg ?hc]
  case hc =>
    rintro (h | h)
    · linarith
    · exact hw h

/-- Counterexample to claim C1 as stated: a refresh at `t = 0` succeeds and
caches a real weather record `wOk`; the next due refresh at `t = 1800` hits a
weather timeout, and the cached slot is overwritten with the placeholder — the
previously successful value `wOk` does not survive the failed refresh. -/
theorem c1_failed_refresh_overwrites_counterexample :
    (slowRefresh cfg1 inpOk 0 initCache).1.cached_weather = some wOk ∧
    get_weather cfg1 inpBad.weatherNet = weatherPlaceholder ∧
    (slowRefresh cfg1 inpBad 1800 (slowRefresh cfg1 inpOk 0 initCache).1).1.cached_weather
      = some weatherPlaceholder ∧
    weatherPlaceholder ≠ wOk := by
  have hbad : get_weather cfg1 (.exn "timeout") = weatherPlaceholder := by
    unfold get_weather
    rw [if_neg (by decide)]
  have hw : get_weather cfg1 (.ok resp0) = wOk := by
    unfold get_weather
    rw [if_neg (by decide)]
    simp [get_weather_body, resp0, wOk, mkHourlyData, get_wind_direction, pyround, directions]
  have hnews : get_news FeedResult.exn FeedResult.exn = [] := rfl
  have hcal : get_calendar cfg1 (.exn "down") 0 = [] := rfl
  have hs1 : (slowRefresh cfg1 inpOk 0 initCache).1 =
      { last_slow_update := 0, cached_weather := some wOk,
        cached_news := [], cached_calendar := [] } := by
    unfold slowRefresh
    rw [if_pos (Or.inr (show initCache.cached_weather = none from rfl))]
    simp [inpOk, hw, hnews, hcal]
  have hs2 : (slowRefresh cfg1 inpBad 1800
      ({ last_slow_update := 0, cached_weather := some wOk,
         cached_news := [], cached_calendar := [] } : CacheState)).1.cached_weather
      = some weatherPlaceholder := by
    unfold slowRefresh
    rw [if_pos (Or.inl (by norm_num [SLOW_UPDATE_INTERVAL]))]
    simp [inpBad, hbad]
  refine ⟨?_, hbad, ?_, by decide⟩
  · rw [hs1]
  · rw [hs1]
    exact hs2

/-- Claim C1, amended: whenever the slow refresh is due it unconditionally
overwrites the weather slot with the adapter's latest result — the placeholder
included — and a previously cached value survives only when the refresh is
skipped because the interval has not elapsed. -/
theorem c1_slow_slot_overwrite_amended (cfg : Config) (inp : SlowInputs)
    (now : ℚ) (s : CacheState) :
    ((SLOW_UPDATE_INTERVAL ≤ now - s.last_slow_update ∨ s.cached_weather = none) →
      (slowRefresh cfg inp now s).1.cached_weather = some (get_weather cfg inp.weatherNet) ∧
      (slowRefresh cfg inp now s).2 = true) ∧
    (¬ (SLOW_UPDATE_INTERVAL ≤ now - s.last_slow_update ∨ s.cached_weather = none) →
      (slowRefresh cfg inp now s).1 = s ∧ (slowRefresh cfg inp now s).2 = false) := by
  constructor
  · intro h
    unfold slowRefresh
    rw [if_pos h]
    exact ⟨rfl, rfl⟩
  · intro h
    unfold slowRefresh
    rw [if_neg h]
    exact ⟨rfl, rfl⟩

/-- Witness for the amended C1: from the initial cache a refresh with a
timed-out weather request stores the placeholder and reports a fetch. -/
theorem c1_slow_slot_overwrite_amended_witness :
    (slowRefresh cfg1 inpBad 0 initCache).1.cached_weather
      = some (get_weather cfg1 inpBad.weatherNet) ∧
    (slowRefresh cfg1 inpBad 0 initCache).2 = true :=
  (c1_slow_slot_overwrite_amended cfg1 inpBad 0 initCache).1 (Or.inr rfl)

/-- Claim C5, amended: if a refresh that performed the slow fetch ran at
`t1`, a second refresh before the slow interval has elapsed since `t1`
performs no slow-bucket refetch and leaves every slow-bucket slot exactly as
the first refresh left it (the skip window is anchored at the last refresh
that fetched, not at an arbitrary earlier invocation). -/
theorem c5_refresh_idempotent_within_interval (cfg : Config) (inp : SlowInputs)
    (t1 t2 : ℚ) (s : CacheState)
    (h1 : (slowRefresh cfg inp t1 s).2 = true)
    (h2 : t2 - t1 < SLOW_UPDATE_INTERVAL) :
    (slowRefresh cfg inp t2 (slowRefresh cfg inp t1 s).1).2 = false ∧
    (slowRefresh cfg inp t2 (slowRefresh cfg inp t1 s).1).1 =
      (slowRefresh cfg inp t1 s).1 := by
  by_cases hc : SLOW_UPDATE_INTERVAL ≤ t1 - s.last_slow_update ∨ s.cached_weather = none
  · have hstate : (slowRefresh cfg inp t1 s).1 =
        { last_slow_update := t1,
          cached_weather := some (get_weather cfg inp.weatherNet),
          cached_news := get_news inp.newsABC inp.newsGdn,
          cached_calendar := get_calendar cfg inp.calNet t1 } := by
      unfold slowRefresh
      rw [if_pos hc]
    have hskip := slowRefresh_skip cfg inp t2 ((slowRefresh cfg inp t1 s).1) ?hlt ?hw
    · rw [hskip]
      exact ⟨rfl, rfl⟩
    case hlt =>
      rw [hstate]
      dsimp only
      linarith
    case hw =>
      rw [hstate]
      simp
  · exfalso
    unfold slowRefresh at h1
    rw [if_neg hc] at h1
    simp at h1

/-- Witness for C5: the first refresh from the initial cache fetches; a second
invocation 100 seconds later does not refetch and changes nothing. -/
theorem c5_refresh_idempotent_within_interval_witness :
    (slowRefresh cfg1 inpOk 100 (slowRefresh cfg1 inpOk 0 initCache).1).2 = false ∧
    (slowRefresh cfg1 inpOk 100 (slowRefresh cfg1 inpOk 0 initCache).1).1 =
      (slowRefresh cfg1 inpOk 0 initCache).1 :=
  c5_refresh_idempotent_within_interval cfg1 inpOk 0 100 initCache
    (by unfold slowRefresh
        rw [if_pos (Or.inr (show initCache.cached_weather = none from rfl))])
    (by norm_num [SLOW_UPDATE_INTERVAL])

/-- Counterexample to claim C5 as stated: the skip window is anchored at
`last_slow_update`, not at the previous invocation.  With a cache last
refreshed at time 0, an invocation at `t1 = 1700` skips, and a second
invocation at `t2 = 1900` — only 200 s after the first, within the slow
interval, with the external world unchanged — does refetch and does change
the weather slot. -/
theorem c5_refetch_within_interval_counterexample :
    (slowRefresh cfg1 inpOk 1700 staleCache).1 = staleCache ∧
    (slowRefresh cfg1 inpOk 1700 staleCache).2 = false ∧
    (1900 : ℚ) - 1700 < SLOW_UPDATE_INTERVAL ∧
    (slowRefresh cfg1 inpOk 1900 (slowRefresh cfg1 inpOk 1700 staleCache).1).2 = true ∧
    (slowRefresh cfg1 inpOk 1900 (slowRefresh cfg1 inpOk 1700 staleCache).1).1.cached_weather
      ≠ (slowRefresh cfg1 inpOk 1700 staleCache).1.cached_weather := by
  have hskip : slowRefresh cfg1 inpOk 1700 staleCache = (staleCache, false) :=
    slowRefresh_skip cfg1 inpOk 1700 staleCache
      (by norm_num [staleCache, SLOW_UPDATE_INTERVAL]) (by simp [staleCache])
  have hw : get_weather cfg1 (.ok resp0) = wOk := by
    unfold get_weather
    rw [if_neg (by decide)]
    simp [get_weather_body, resp0, wOk, mkHourlyData, get_wind_direction, pyround, directions]
  have hfetch : slowRefresh cfg1 inpOk 1900 staleCache =
      ({ last_slow_update := 1900, cached_weather := some wOk,
         cached_news := [], cached_calendar := [] }, true) := by
    unfold slowRefresh
    rw [if_pos (Or.inl (by norm_num [staleCache, SLOW_UPDATE_INTERVAL]))]
    simp [inpOk, hw]
    exact ⟨rfl, rfl⟩
  refine ⟨by rw [hskip], by rw [hskip], by norm_num [SLOW_UPDATE_INTERVAL], ?_, ?_⟩
  · rw [hskip]
    dsimp only
    rw [hfetch]
  · rw [hskip]
    dsimp only
    rw [hfetch]
    simp [staleCache, wOk, weatherPlaceholder]

end Dashboard
